import Mathlib

/-!
Shallow embedding of `source/common/systems/forward-renderer.cpp`
(`our::ForwardRenderer`), a single-pass forward renderer.

Modelling conventions:
* GLM float scalars are modelled by `ℚ`; `glm::vec3` / `glm::vec4` by records
  of rationals; `glm::mat4` by four column vectors (GLM is column-major, and
  the 16-argument `glm::mat4` constructor fills columns in order).
* External collaborator objects that the renderer only stores and passes
  around (meshes, shaders, textures, samplers) are modelled by opaque handles
  or by the fields of theirs that this translation unit actually reads.
* The entity-component scene graph is modelled by an `Entity` record holding
  lists of components; `getComponent` returns the first component of a kind
  (`List.head?`) and `getAllComponents` returns all of them, matching the
  engine interface used at lines 129-161 of the source.
* OpenGL calls are modelled as an effect trace (`GLEffect`); shader uniform
  stores (`shader->set`) are effects carrying the uniform name and value.
* `std::sort` with a strict-weak-order comparator `comp` guarantees exactly
  that its output is a permutation sorted so that `comp b a` never holds for
  `a` placed before `b`; we realise this contract with `List.mergeSort` on
  the complement relation `fun a b => !comp b a`.
-/

namespace ForwardRenderer

/-- `glm::vec3` with rational components. -/
structure Vec3 where
  x : ℚ
  y : ℚ
  z : ℚ
  deriving DecidableEq

/-- `glm::vec4` with rational components. -/
structure Vec4 where
  x : ℚ
  y : ℚ
  z : ℚ
  w : ℚ
  deriving DecidableEq

/-- `glm::ivec2` (used for the window size). -/
structure IVec2 where
  x : Int
  y : Int
  deriving DecidableEq

/-- `glm::mat4`, stored as its four columns (GLM is column-major). -/
structure Mat4 where
  c0 : Vec4
  c1 : Vec4
  c2 : Vec4
  c3 : Vec4
  deriving DecidableEq

/-- Matrix-vector product `m * v` (columns weighted by the components of `v`). -/
def Mat4.mulVec (m : Mat4) (v : Vec4) : Vec4 :=
  ⟨m.c0.x * v.x + m.c1.x * v.y + m.c2.x * v.z + m.c3.x * v.w,
   m.c0.y * v.x + m.c1.y * v.y + m.c2.y * v.z + m.c3.y * v.w,
   m.c0.z * v.x + m.c1.z * v.y + m.c2.z * v.z + m.c3.z * v.w,
   m.c0.w * v.x + m.c1.w * v.y + m.c2.w * v.z + m.c3.w * v.w⟩

/-- Matrix-matrix product `a * b`. -/
def Mat4.mul (a b : Mat4) : Mat4 :=
  ⟨a.mulVec b.c0, a.mulVec b.c1, a.mulVec b.c2, a.mulVec b.c3⟩

/-- The identity matrix `glm::mat4(1.0f)`. -/
def Mat4.identity : Mat4 :=
  ⟨⟨1, 0, 0, 0⟩, ⟨0, 1, 0, 0⟩, ⟨0, 0, 1, 0⟩, ⟨0, 0, 0, 1⟩⟩

/-- `glm::translate(glm::mat4(1.0f), t)`: identity with translation column `t`. -/
def translateM (t : Vec3) : Mat4 :=
  ⟨⟨1, 0, 0, 0⟩, ⟨0, 1, 0, 0⟩, ⟨0, 0, 1, 0⟩, ⟨t.x, t.y, t.z, 1⟩⟩

/-- `glm::scale(glm::mat4(1.0f), glm::vec3(s, s, s))`: uniform scale. -/
def scaleM (s : ℚ) : Mat4 :=
  ⟨⟨s, 0, 0, 0⟩, ⟨0, s, 0, 0⟩, ⟨0, 0, s, 0⟩, ⟨0, 0, 0, 1⟩⟩

/-- `glm::dot` on `vec3`. -/
def dot3 (a b : Vec3) : ℚ :=
  a.x * b.x + a.y * b.y + a.z * b.z

/-- Componentwise `vec3` subtraction. -/
def Vec3.sub (a b : Vec3) : Vec3 :=
  ⟨a.x - b.x, a.y - b.y, a.z - b.z⟩

/-- `glm::vec3(v)` on a `vec4`: drop the homogeneous component. -/
def vec3of (v : Vec4) : Vec3 :=
  ⟨v.x, v.y, v.z⟩

/-! ## Scene-graph components (fields read or written by the renderer) -/

/-- External mesh handle; the renderer only stores it and calls `draw()`. -/
abbrev Mesh := Nat

/-- Dynamic type of a material, standing in for the `dynamic_cast` probes:
`defaultMat` is `DefaultMaterial` (the lit kind), `texturedMat` is
`TexturedMaterial`, `otherMat` any other concrete material class. -/
inductive MaterialKind
  | defaultMat
  | texturedMat
  | otherMat
  deriving DecidableEq

/-- The material fields this translation unit reads or writes. -/
structure Material where
  kind : MaterialKind
  transparent : Bool
  isSkybox : Bool
  deriving DecidableEq

/-- `DirectionalLight` component: traversal reads it, never writes it. -/
structure DirectionalLight where
  direction : Vec3
  intensity : ℚ
  color : Vec3
  deriving DecidableEq

/-- `SpotLight` component: traversal overwrites `worldPosition`. -/
structure SpotLight where
  worldPosition : Vec3
  intensity : ℚ
  color : Vec3
  lightDecay : ℚ
  deriving DecidableEq

/-- `ConeLight` component: traversal overwrites `worldPosition` and
`worldDirection` from the authored local `direction`. -/
structure ConeLight where
  direction : Vec3
  worldPosition : Vec3
  worldDirection : Vec3
  intensity : ℚ
  color : Vec3
  range : ℚ
  smoothing : ℚ
  lightDecay : ℚ
  deriving DecidableEq

/-- `MeshRendererComponent`: a mesh handle plus a material. -/
structure MeshRendererComponent where
  mesh : Mesh
  material : Material
  deriving DecidableEq

/-- `CameraComponent`: view matrix, projection matrix (parameterized by the
output size) and the `orthoHeight` scale used for the sky sphere. -/
structure CameraComponent where
  view : Mat4
  projection : IVec2 → Mat4
  orthoHeight : ℚ

/-- An entity: its world transform and its components, one list per component
kind (an entity may carry several components of a kind; `getComponent`
returns the first). -/
structure Entity where
  localToWorld : Mat4
  cameras : List CameraComponent
  meshRenderers : List MeshRendererComponent
  directionalLights : List DirectionalLight
  spotLights : List SpotLight
  coneLights : List ConeLight

/-- `Entity::getComponent<T>()`: the first component of the kind, if any. -/
def getComponent {α : Type} (components : List α) : Option α :=
  components.head?

/-- `Entity::getAllComponents<T>()`: all components of the kind. -/
def getAllComponents {α : Type} (components : List α) : List α :=
  components

/-! ## Per-frame render commands and traversal (render, lines 118-167) -/

/-- `RenderCommand`: world transform, world-space center, mesh and material. -/
structure RenderCommand where
  localToWorld : Mat4
  center : Vec3
  mesh : Mesh
  material : Material
  deriving DecidableEq

/-- The per-frame state accumulated by the entity loop: the first camera found
(paired with its owner's `localToWorld`, which line 174 later reads through
`getOwner()`), and the five per-frame lists. -/
structure Accum where
  camera : Option (CameraComponent × Mat4)
  opaqueCommands : List RenderCommand
  transparentCommands : List RenderCommand
  dls : List DirectionalLight
  sls : List SpotLight
  cls : List ConeLight

/-- The accumulator after the five `clear()` calls at lines 121-125. -/
def Accum.empty : Accum :=
  ⟨none, [], [], [], [], []⟩

/-- Body of the entity loop (lines 127-167): collects the first camera, builds
and buckets a render command from the first mesh renderer, appends the first
directional light unchanged, appends the first spot light after overwriting
its cached world position, and appends every cone light after overwriting its
cached world position and world direction.  Returns the updated accumulator
and the entity with its mutated light components written back. -/
def processEntity (acc : Accum) (e : Entity) : Accum × Entity :=
  let camera := match acc.camera with
    | some c => some c
    | none => (getComponent e.cameras).map (fun c => (c, e.localToWorld))
  let localToWorld := e.localToWorld
  let position := localToWorld.mulVec ⟨0, 0, 0, 1⟩
  let buckets := match getComponent e.meshRenderers with
    | some meshRenderer =>
      let command : RenderCommand :=
        ⟨localToWorld, vec3of position, meshRenderer.mesh, meshRenderer.material⟩
      if command.material.transparent then
        (acc.opaqueCommands, acc.transparentCommands ++ [command])
      else
        (acc.opaqueCommands ++ [command], acc.transparentCommands)
    | none => (acc.opaqueCommands, acc.transparentCommands)
  let dls := match getComponent e.directionalLights with
    | some dl => acc.dls ++ [dl]
    | none => acc.dls
  let spotStep := match e.spotLights with
    | [] => (acc.sls, e.spotLights)
    | s :: rest =>
      let s1 := { s with worldPosition := vec3of position }
      (acc.sls ++ [s1], s1 :: rest)
  let coneUpdated := (getAllComponents e.coneLights).map (fun k =>
    { k with
        worldPosition := vec3of position,
        worldDirection :=
          vec3of (localToWorld.mulVec ⟨k.direction.x, k.direction.y, k.direction.z, 0⟩) })
  (⟨camera, buckets.1, buckets.2, dls, spotStep.1, acc.cls ++ coneUpdated⟩,
   { e with spotLights := spotStep.2, coneLights := coneUpdated })

/-- The whole entity loop: fold `processEntity` over the scene, returning the
final accumulator and the scene with per-entity mutations applied. -/
def traverse (acc : Accum) : List Entity → Accum × List Entity
  | [] => (acc, [])
  | e :: es =>
    let step := processEntity acc e
    let rest := traverse step.1 es
    (rest.1, step.2 :: rest.2)

/-! ## Transparency sort (render, lines 181-188) -/

/-- The comparator lambda passed to `std::sort`: `first` is ordered before
`second` when `second`'s center, relative to the camera, projects onto the
camera forward axis strictly less than `first`'s. -/
def transCompare (cameraForward cameraCenter : Vec3)
    (first second : RenderCommand) : Bool :=
  decide (dot3 (second.center.sub cameraCenter) cameraForward <
          dot3 (first.center.sub cameraCenter) cameraForward)

/-- The `std::sort` call on the transparent list, realised by `mergeSort` on
the complement of the comparator (the exact guarantee `std::sort` gives for a
strict weak order: the output is a permutation in which no element placed
later compares before an earlier one). -/
def sortTransparent (cameraForward cameraCenter : Vec3)
    (commands : List RenderCommand) : List RenderCommand :=
  commands.mergeSort (fun a b => !(transCompare cameraForward cameraCenter b a))

/-! ## Shader uniform stores (`shader->set(name, value)`) -/

/-- A value stored into a shader uniform. -/
inductive UniformValue
  | mat (m : Mat4)
  | v3 (v : Vec3)
  | q (x : ℚ)
  | int (n : Int)
  deriving DecidableEq

/-- A named uniform store. -/
abbrev Uniform := String × UniformValue

/-- The stringstream-built uniform name `arrayName[i].field` (the loop makes
the header `arrayName[i].` and appends the field name to it). -/
def uniformName (arrayName : String) (i : Nat) (field : String) : String :=
  (arrayName ++ "[" ++ toString i ++ "].") ++ field

/-- The indexed uniform stores for one light array: the C++ loop stores every
field of the i-th light under `arrayName[i].field`; `i` is the loop counter
starting at `start`. -/
def indexedUniforms (arrayName : String) (fields : α → List Uniform) :
    Nat → List α → List Uniform
  | _, [] => []
  | i, l :: ls =>
    (fields l).map (fun u => (uniformName arrayName i u.1, u.2))
      ++ indexedUniforms arrayName fields (i + 1) ls

/-- The per-light uniforms stored for a directional light (lines 231-233). -/
def dlFields (d : DirectionalLight) : List Uniform :=
  [("direction", .v3 d.direction), ("intensity", .q d.intensity),
   ("color", .v3 d.color)]

/-- The per-light uniforms stored for a spot light (lines 241-244). -/
def slFields (s : SpotLight) : List Uniform :=
  [("position", .v3 s.worldPosition), ("intensity", .q s.intensity),
   ("color", .v3 s.color), ("decay", .q s.lightDecay)]

/-- The per-light uniforms stored for a cone light (lines 252-258). -/
def clFields (c : ConeLight) : List Uniform :=
  [("position", .v3 c.worldPosition), ("intensity", .q c.intensity),
   ("color", .v3 c.color), ("direction", .v3 c.worldDirection),
   ("range", .q c.range), ("smoothing", .q c.smoothing),
   ("decay", .q c.lightDecay)]

/-- The per-draw light uniform stores (lines 226-259 and, identically,
lines 309-342): a count uniform per light kind followed by the indexed
fields of every collected light, directional then spot then cone. -/
def lightUniforms (dls : List DirectionalLight) (sls : List SpotLight)
    (cls : List ConeLight) : List Uniform :=
  [("directionalLightCount", .int dls.length)]
    ++ indexedUniforms "directionalLights" dlFields 0 dls
    ++ [("spotLightsCount", .int sls.length)]
    ++ indexedUniforms "spotLights" slFields 0 sls
    ++ [("coneLightsCount", .int cls.length)]
    ++ indexedUniforms "coneLights" clFields 0 cls

/-- Uniform stores for one opaque command (lines 216-262): if the material's
dynamic type is `DefaultMaterial`, the model matrix, `VP`, camera position,
area light and the light arrays are stored; otherwise only the precombined
`VP * localToWorld`. -/
def bindOpaqueUniforms (VP : Mat4) (cameraCenter areaLight : Vec3)
    (dls : List DirectionalLight) (sls : List SpotLight) (cls : List ConeLight)
    (k : RenderCommand) : List Uniform :=
  if k.material.kind = MaterialKind.defaultMat then
    [("transform", .mat k.localToWorld), ("Camera", .mat VP),
     ("cameraPosition", .v3 cameraCenter), ("areaLight", .v3 areaLight)]
      ++ lightUniforms dls sls cls
  else
    [("transform", .mat (VP.mul k.localToWorld))]

/-- Uniform stores for one transparent command (lines 299-345): same as the
opaque path except that `areaLight` is stored before `cameraPosition`. -/
def bindTransparentUniforms (VP : Mat4) (cameraCenter areaLight : Vec3)
    (dls : List DirectionalLight) (sls : List SpotLight) (cls : List ConeLight)
    (k : RenderCommand) : List Uniform :=
  if k.material.kind = MaterialKind.defaultMat then
    [("transform", .mat k.localToWorld), ("Camera", .mat VP),
     ("areaLight", .v3 areaLight), ("cameraPosition", .v3 cameraCenter)]
      ++ lightUniforms dls sls cls
  else
    [("transform", .mat (VP.mul k.localToWorld))]

/-! ## Renderer state, initialization (lines 9-95) -/

/-- Internal texture formats used by `texture_utils::empty`. -/
inductive TexFormat
  | RGBA8
  | DEPTH_COMPONENT24
  deriving DecidableEq

/-- An offscreen texture target: format and size, as created by
`texture_utils::empty(format, size)`. -/
structure TextureSpec where
  format : TexFormat
  size : IVec2
  deriving DecidableEq

/-- A framebuffer object with its color and depth attachments. -/
structure Framebuffer where
  colorAttachment : Option TextureSpec
  depthAttachment : Option TextureSpec
  deriving DecidableEq

/-- The configuration surface read by `initialize`: `areaLight` (defaulted to
white), `sky` (texture path; presence enables the sky) and `postprocess`
(fragment-shader path; presence enables post-processing). -/
structure RendererConfig where
  areaLight : Option Vec3
  sky : Option String
  postprocess : Option String

/-- The `ForwardRenderer` member state set by `initialize` and used by
`render`.  Sky and post-process resources are nullable pointers in the
source, modelled as options. -/
structure RendererState where
  windowSize : IVec2
  areaLight : Vec3
  skySphere : Option Mesh
  skyMaterial : Option Material
  postprocessFrameBuffer : Option Framebuffer
  colorTarget : Option TextureSpec
  depthTarget : Option TextureSpec
  postProcessVertexArray : Option Unit
  postprocessMaterial : Option Material
  opaqueCommands : List RenderCommand
  transparentCommands : List RenderCommand
  directionalLights : List DirectionalLight
  spotLights : List SpotLight
  coneLights : List ConeLight

/-- The sphere handle built by `mesh_utils::sphere(glm::ivec2(16, 16))`
(external mesh construction; the handle is all the renderer keeps). -/
def skySphereMesh : Mesh := 0

/-- `ForwardRenderer::initialize`, here named `initializeRenderer`: store the window size and area light, then
build the sky resources only when the `sky` key is present (sphere mesh plus
a `DefaultMaterial` that is not transparent and is flagged as skybox), and
the post-process resources only when the `postprocess` key is present (an
RGBA8 color target and a 24-bit depth target at the window size, attached to
one framebuffer, a fullscreen vertex array and a `TexturedMaterial`). -/
def initializeRenderer (windowSize : IVec2) (config : RendererConfig) : RendererState :=
  let base : RendererState :=
    { windowSize := windowSize
      areaLight := config.areaLight.getD ⟨1, 1, 1⟩
      skySphere := none
      skyMaterial := none
      postprocessFrameBuffer := none
      colorTarget := none
      depthTarget := none
      postProcessVertexArray := none
      postprocessMaterial := none
      opaqueCommands := []
      transparentCommands := []
      directionalLights := []
      spotLights := []
      coneLights := [] }
  let withSky := match config.sky with
    | some _ =>
      { base with
          skySphere := some skySphereMesh
          skyMaterial := some
            { kind := MaterialKind.defaultMat, transparent := false, isSkybox := true } }
    | none => base
  match config.postprocess with
  | some _ =>
    let colorTarget : TextureSpec := ⟨TexFormat.RGBA8, windowSize⟩
    let depthTarget : TextureSpec := ⟨TexFormat.DEPTH_COMPONENT24, windowSize⟩
    { withSky with
        colorTarget := some colorTarget
        depthTarget := some depthTarget
        postprocessFrameBuffer := some ⟨some colorTarget, some depthTarget⟩
        postProcessVertexArray := some ()
        postprocessMaterial := some
          { kind := MaterialKind.texturedMat, transparent := false, isSkybox := false } }
  | none => withSky

/-! ## The render pass (lines 118-358) as an effect trace -/

/-- One OpenGL-level effect of `render`, in program order. -/
inductive GLEffect
  | viewport (size : IVec2)
  | clearColor (c : Vec4)
  | clearDepth (d : ℚ)
  | colorMask (r g b a : Bool)
  | depthMask (b : Bool)
  | bindFramebuffer (fb : Option Framebuffer)
  | clear
  | setupMaterial (m : Material)
  | setUniform (name : String) (v : UniformValue)
  | drawMesh (m : Mesh)
  | drawSky (m : Option Mesh)
  | bindVertexArray
  | drawFullscreenTriangle
  deriving DecidableEq

/-- The fixed matrix `glm::mat4(1,0,0,0, 0,1,0,0, 0,0,0,0, 0,0,1,1)` of
lines 280-285 (arguments fill columns), pre-multiplied onto `VP` so the sky
lands at maximum depth. -/
def alwaysBehindTransform : Mat4 :=
  ⟨⟨1, 0, 0, 0⟩, ⟨0, 1, 0, 0⟩, ⟨0, 0, 0, 0⟩, ⟨0, 0, 1, 1⟩⟩

/-- Result of one `render` call: the renderer state (with the rebuilt
per-frame lists), the scene with traversal's component writes applied, and
the trace of graphics effects issued. -/
structure RenderOutput where
  state : RendererState
  world : List Entity
  effects : List GLEffect

/-- `ForwardRenderer::render`: clear the five per-frame lists, traverse the
scene (collecting camera, commands and lights, and writing the spot/cone
world-space caches), and abandon the frame if no camera was found.
Otherwise sort the transparent commands, compute `VP`, set up and clear the
target (the offscreen framebuffer when post-processing is on), draw opaque
commands, the sky, sorted transparent commands, and the post-process
fullscreen triangle. -/
def render (rs : RendererState) (world : List Entity) : RenderOutput :=
  let traversed := traverse Accum.empty world
  let acc := traversed.1
  let world1 := traversed.2
  let rs1 := { rs with
    opaqueCommands := acc.opaqueCommands
    transparentCommands := acc.transparentCommands
    directionalLights := acc.dls
    spotLights := acc.sls
    coneLights := acc.cls }
  match acc.camera with
  | none => ⟨rs1, world1, []⟩
  | some cam =>
    let camTransform := cam.2
    let cameraForward := vec3of (camTransform.mulVec ⟨0, 0, -1, 0⟩)
    let cameraCenter := vec3of (camTransform.mulVec ⟨0, 0, 0, 1⟩)
    let sorted := sortTransparent cameraForward cameraCenter acc.transparentCommands
    let VP := (cam.1.projection rs.windowSize).mul cam.1.view
    let preEffects : List GLEffect :=
      [.viewport rs.windowSize, .clearColor ⟨0, 0, 0, 0⟩, .clearDepth 1,
       .colorMask true true true true, .depthMask true]
        ++ (match rs.postprocessMaterial with
            | some _ => [.bindFramebuffer rs.postprocessFrameBuffer]
            | none => [])
        ++ [.clear]
    let opaqueEffects : List GLEffect := acc.opaqueCommands.flatMap (fun k =>
      [.setupMaterial k.material]
        ++ (bindOpaqueUniforms VP cameraCenter rs.areaLight acc.dls acc.sls acc.cls k).map
            (fun u => .setUniform u.1 u.2)
        ++ [.drawMesh k.mesh])
    let skyEffects : List GLEffect := match rs.skyMaterial with
      | some skyMat =>
        let M := translateM cameraCenter
        let skyboxScaleMatrix := scaleM (cam.1.orthoHeight * 2)
        [.setupMaterial skyMat,
         .setUniform "areaLight" (.v3 rs.areaLight),
         .setUniform "transform" (.mat (M.mul skyboxScaleMatrix)),
         .setUniform "Camera" (.mat (alwaysBehindTransform.mul VP)),
         .drawSky rs.skySphere]
      | none => []
    let transparentEffects : List GLEffect := sorted.flatMap (fun k =>
      [.setupMaterial k.material]
        ++ (bindTransparentUniforms VP cameraCenter rs.areaLight acc.dls acc.sls acc.cls k).map
            (fun u => .setUniform u.1 u.2)
        ++ [.drawMesh k.mesh])
    let ppEffects : List GLEffect := match rs.postprocessMaterial with
      | some ppMat =>
        [.bindFramebuffer none, .setupMaterial ppMat, .bindVertexArray,
         .drawFullscreenTriangle]
      | none => []
    ⟨{ rs1 with transparentCommands := sorted }, world1,
     preEffects ++ opaqueEffects ++ skyEffects ++ transparentEffects ++ ppEffects⟩

/-- Abstracted draw events, for stating the order of draw calls. -/
inductive DrawEvent
  | command (m : Mesh)
  | sky
  | fullscreen
  deriving DecidableEq

/-- The draw calls of an effect trace, in order. -/
def drawEvents (effects : List GLEffect) : List DrawEvent :=
  effects.filterMap (fun e => match e with
    | .drawMesh m => some (.command m)
    | .drawSky _ => some .sky
    | .drawFullscreenTriangle => some .fullscreen
    | _ => none)

/-! ## Concrete sample scenes used to instantiate the theorems -/

/-- A sample world transform: translation by `(1, 2, 3)`. -/
def sampleTransform : Mat4 := translateM ⟨1, 2, 3⟩

/-- A sample spot light with a stale cached world position. -/
def sampleSpot : SpotLight := ⟨⟨0, 0, 0⟩, 1, ⟨1, 1, 1⟩, 1⟩

/-- A sample cone light pointing along `+x` with stale caches. -/
def sampleCone : ConeLight := ⟨⟨1, 0, 0⟩, ⟨0, 0, 0⟩, ⟨0, 0, 0⟩, 1, ⟨1, 1, 1⟩, 5, 1, 1⟩

/-- A sample directional light pointing down. -/
def sampleDirectional : DirectionalLight := ⟨⟨0, -1, 0⟩, 1, ⟨1, 1, 1⟩⟩

/-- A sample camera at the origin (identity view and projection). -/
def sampleCamera : CameraComponent := ⟨Mat4.identity, fun _ => Mat4.identity, 10⟩

/-- A sample lit, non-transparent material. -/
def sampleMaterialLit : Material := ⟨MaterialKind.defaultMat, false, false⟩

/-- A sample unlit, transparent material. -/
def sampleMaterialUnlit : Material := ⟨MaterialKind.texturedMat, true, false⟩

/-- A renderer initialized with neither sky nor post-processing. -/
def sampleRenderer : RendererState :=
  initializeRenderer ⟨800, 600⟩ ⟨none, none, none⟩

/-- A one-entity world carrying only a spot light (no camera). -/
def spotOnlyWorld : List Entity :=
  [⟨sampleTransform, [], [], [], [sampleSpot], []⟩]

/-- A one-entity world carrying only a cone light (no camera). -/
def coneOnlyWorld : List Entity :=
  [⟨sampleTransform, [], [], [], [], [sampleCone]⟩]

/-- A one-entity world carrying only a directional light (no camera). -/
def dirOnlyWorld : List Entity :=
  [⟨sampleTransform, [], [], [sampleDirectional], [], []⟩]

/-- The spot light of `spotOnlyWorld` after traversal resolved its world
position from `sampleTransform`. -/
def spotWitnessLight : SpotLight :=
  { sampleSpot with worldPosition := ⟨1, 2, 3⟩ }

/-- The cone light of `coneOnlyWorld` after traversal resolved its world
position and direction from `sampleTransform`. -/
def coneWitnessLight : ConeLight :=
  { sampleCone with worldPosition := ⟨1, 2, 3⟩, worldDirection := ⟨1, 0, 0⟩ }

/-- A render command whose material is of the default/lit kind. -/
def sampleLitCommand : RenderCommand :=
  ⟨Mat4.identity, ⟨0, 0, 0⟩, 7, sampleMaterialLit⟩

/-- A render command whose material is not of the default/lit kind. -/
def sampleUnlitCommand : RenderCommand :=
  ⟨Mat4.identity, ⟨0, 0, 0⟩, 8, sampleMaterialUnlit⟩

/-- A one-entity world with a camera and one opaque lit mesh renderer. -/
def cameraWorld : List Entity :=
  [⟨Mat4.identity, [sampleCamera], [⟨7, sampleMaterialLit⟩], [], [], []⟩]

/-- What C4 requires a lit (default-material) draw command's shader to
receive: the model matrix alone as `transform`, `VP` separately as `Camera`,
the camera position and area light, and for each light kind its count and
each instance's fields under the indexed name path `array[i].field`. -/
def ReceivesLitUniforms (VP : Mat4) (cameraCenter areaLight : Vec3)
    (dls : List DirectionalLight) (sls : List SpotLight) (cls : List ConeLight)
    (k : RenderCommand) (B : List Uniform) : Prop :=
  ("transform", UniformValue.mat k.localToWorld) ∈ B
  ∧ ("Camera", UniformValue.mat VP) ∈ B
  ∧ ("cameraPosition", UniformValue.v3 cameraCenter) ∈ B
  ∧ ("areaLight", UniformValue.v3 areaLight) ∈ B
  ∧ ("directionalLightCount", UniformValue.int dls.length) ∈ B
  ∧ ("spotLightsCount", UniformValue.int sls.length) ∈ B
  ∧ ("coneLightsCount", UniformValue.int cls.length) ∈ B
  ∧ (∀ i (h : i < dls.length), ∀ u ∈ dlFields (dls.get ⟨i, h⟩),
      (uniformName "directionalLights" i u.1, u.2) ∈ B)
  ∧ (∀ i (h : i < sls.length), ∀ u ∈ slFields (sls.get ⟨i, h⟩),
      (uniformName "spotLights" i u.1, u.2) ∈ B)
  ∧ (∀ i (h : i < cls.length), ∀ u ∈ clFields (cls.get ⟨i, h⟩),
      (uniformName "coneLights" i u.1, u.2) ∈ B)

/-- Blank out the traversal-written world-space caches of an entity's light
components (used to state which entity fields traversal may mutate). -/
def eraseLightCaches (e : Entity) : Entity :=
  { e with
      spotLights := e.spotLights.map (fun s => { s with worldPosition := ⟨0, 0, 0⟩ }),
      coneLights := e.coneLights.map (fun c =>
        { c with worldPosition := ⟨0, 0, 0⟩, worldDirection := ⟨0, 0, 0⟩ }) }

end ForwardRenderer

namespace ForwardRenderer

/-! ## Traversal lemmas shared by several theorems -/

/-- Splitting the traversal of a cons cell (definitional). -/
theorem traverse_cons (acc : Accum) (e : Entity) (es : List Entity) :
    traverse acc (e :: es)
      = ((traverse (processEntity acc e).1 es).1,
         (processEntity acc e).2 :: (traverse (processEntity acc e).1 es).2) :=
  rfl

/-- Every spot light in the traversal accumulator either was there already or
is the first spot light of some visited entity with its world position
overwritten by that entity's transform applied to the origin. -/
theorem traverse_sls_mem (es : List Entity) (acc : Accum) (s : SpotLight)
    (h : s ∈ (traverse acc es).1.sls) :
    s ∈ acc.sls ∨ ∃ e ∈ es, ∃ s0, getComponent e.spotLights = some s0 ∧
      s = { s0 with worldPosition := vec3of (e.localToWorld.mulVec ⟨0, 0, 0, 1⟩) } := by
  induction es generalizing acc with
  | nil => exact Or.inl h
  | cons e es ih =>
    rw [traverse_cons] at h
    rcases ih (processEntity acc e).1 h with h1 | h2
    · cases hsp : e.spotLights with
      | nil =>
        left
        simpa [processEntity, hsp] using h1
      | cons s0 rest =>
        have hmem : s ∈ acc.sls ++
            [{ s0 with worldPosition := vec3of (e.localToWorld.mulVec ⟨0, 0, 0, 1⟩) }] := by
          simpa [processEntity, hsp] using h1
        rcases List.mem_append.mp hmem with h2 | h3
        · exact Or.inl h2
        · refine Or.inr ⟨e, List.mem_cons_self e es, s0, ?_, ?_⟩
          · simp [getComponent, hsp]
          · simpa using h3
    · rcases h2 with ⟨e1, he1, s0, hs0, hs⟩
      exact Or.inr ⟨e1, List.mem_cons_of_mem e he1, s0, hs0, hs⟩

/-- Every cone light in the traversal accumulator either was there already or
is a cone light of some visited entity with its world position and world
direction overwritten from that entity's transform. -/
theorem traverse_cls_mem (es : List Entity) (acc : Accum) (c : ConeLight)
    (h : c ∈ (traverse acc es).1.cls) :
    c ∈ acc.cls ∨ ∃ e ∈ es, ∃ c0 ∈ e.coneLights,
      c = { c0 with
              worldPosition := vec3of (e.localToWorld.mulVec ⟨0, 0, 0, 1⟩),
              worldDirection := vec3of (e.localToWorld.mulVec
                ⟨c0.direction.x, c0.direction.y, c0.direction.z, 0⟩) } := by
  induction es generalizing acc with
  | nil => exact Or.inl h
  | cons e es ih =>
    rw [traverse_cons] at h
    rcases ih (processEntity acc e).1 h with h1 | h2
    · have hmem : c ∈ acc.cls ++ e.coneLights.map (fun k =>
          { k with
              worldPosition := vec3of (e.localToWorld.mulVec ⟨0, 0, 0, 1⟩),
              worldDirection := vec3of (e.localToWorld.mulVec
                ⟨k.direction.x, k.direction.y, k.direction.z, 0⟩) }) := by
        simpa [processEntity, getAllComponents] using h1
      rcases List.mem_append.mp hmem with h2 | h3
      · exact Or.inl h2
      · rcases List.mem_map.mp h3 with ⟨c0, hc0, hc⟩
        exact Or.inr ⟨e, List.mem_cons_self e es, c0, hc0, hc.symm⟩
    · rcases h2 with ⟨e1, he1, c0, hc0, hc⟩
      exact Or.inr ⟨e1, List.mem_cons_of_mem e he1, c0, hc0, hc⟩

/-- Every directional light in the traversal accumulator either was there
already or is the first directional light of some visited entity, unchanged. -/
theorem traverse_dls_mem (es : List Entity) (acc : Accum) (d : DirectionalLight)
    (h : d ∈ (traverse acc es).1.dls) :
    d ∈ acc.dls ∨ ∃ e ∈ es, getComponent e.directionalLights = some d := by
  induction es generalizing acc with
  | nil => exact Or.inl h
  | cons e es ih =>
    rw [traverse_cons] at h
    rcases ih (processEntity acc e).1 h with h1 | h2
    · cases hdl : e.directionalLights with
      | nil =>
        left
        simpa [processEntity, getComponent, hdl] using h1
      | cons d0 rest =>
        have hmem : d ∈ acc.dls ++ [d0] := by
          simpa [processEntity, getComponent, hdl] using h1
        rcases List.mem_append.mp hmem with h2 | h3
        · exact Or.inl h2
        · have hd : d = d0 := by simpa using h3
          refine Or.inr ⟨e, List.mem_cons_self e es, ?_⟩
          simp [getComponent, hdl, hd]
    · rcases h2 with ⟨e1, he1, hd⟩
      exact Or.inr ⟨e1, List.mem_cons_of_mem e he1, hd⟩

/-- Traversal never touches the directional-light components stored on the
entities. -/
theorem traverse_preserves_directional (acc : Accum) (es : List Entity) :
    ((traverse acc es).2).map Entity.directionalLights
      = es.map Entity.directionalLights := by
  induction es generalizing acc with
  | nil => rfl
  | cons e es ih =>
    rw [traverse_cons]
    simp only [List.map_cons]
    exact congrArg₂ List.cons rfl (ih (processEntity acc e).1)

/-- Traversal's only writes into an entity are the spot/cone world-space
caches: after blanking those caches the entity is unchanged. -/
theorem eraseLightCaches_processEntity (acc : Accum) (e : Entity) :
    eraseLightCaches (processEntity acc e).2 = eraseLightCaches e := by
  cases hsp : e.spotLights <;>
    simp [processEntity, eraseLightCaches, hsp, getAllComponents,
      List.map_map, Function.comp]

/-- Traversal mutates the scene only through the spot/cone light caches. -/
theorem traverse_world_erase (acc : Accum) (es : List Entity) :
    ((traverse acc es).2).map eraseLightCaches = es.map eraseLightCaches := by
  induction es generalizing acc with
  | nil => rfl
  | cons e es ih =>
    rw [traverse_cons]
    simp only [List.map_cons, eraseLightCaches_processEntity]
    rw [ih (processEntity acc e).1]

/-- `render` stores the traversal's spot-light list in the renderer state. -/
theorem render_state_sls (rs : RendererState) (world : List Entity) :
    (render rs world).state.spotLights = (traverse Accum.empty world).1.sls := by
  cases h : (traverse Accum.empty world).1.camera with
  | none => simp [render, h]
  | some cam => simp [render, h]

/-- `render` stores the traversal's cone-light list in the renderer state. -/
theorem render_state_cls (rs : RendererState) (world : List Entity) :
    (render rs world).state.coneLights = (traverse Accum.empty world).1.cls := by
  cases h : (traverse Accum.empty world).1.camera with
  | none => simp [render, h]
  | some cam => simp [render, h]

/-- `render` stores the traversal's directional-light list in the state. -/
theorem render_state_dls (rs : RendererState) (world : List Entity) :
    (render rs world).state.directionalLights = (traverse Accum.empty world).1.dls := by
  cases h : (traverse Accum.empty world).1.camera with
  | none => simp [render, h]
  | some cam => simp [render, h]

/-- `render` returns the traversed scene. -/
theorem render_world (rs : RendererState) (world : List Entity) :
    (render rs world).world = (traverse Accum.empty world).2 := by
  cases h : (traverse Accum.empty world).1.camera with
  | none => simp [render, h]
  | some cam => simp [render, h]

/-- Membership in an indexed uniform block, at an arbitrary loop start. -/
theorem mem_indexedUniforms {α : Type} (arrayName : String)
    (fields : α → List Uniform) (ls : List α) (start i : Nat)
    (h : i < ls.length) (u : Uniform) (hu : u ∈ fields (ls.get ⟨i, h⟩)) :
    (uniformName arrayName (start + i) u.1, u.2)
      ∈ indexedUniforms arrayName fields start ls := by
  induction ls generalizing start i with
  | nil => exact absurd h (Nat.not_lt_zero i)
  | cons l ls ih =>
    cases i with
    | zero =>
      apply List.mem_append_left
      have hu0 : u ∈ fields l := hu
      simpa using List.mem_map_of_mem (fun u => (uniformName arrayName start u.1, u.2)) hu0
    | succ j =>
      have h2 : j < ls.length := Nat.lt_of_succ_lt_succ h
      have hu2 : u ∈ fields (ls.get ⟨j, h2⟩) := hu
      apply List.mem_append_right
      have heq : start + (j + 1) = start + 1 + j := by omega
      rw [heq]
      exact ih (start + 1) j h2 hu2

/-- Membership in an indexed uniform block started at 0 (as in the source). -/
theorem mem_indexedUniforms_zero {α : Type} (arrayName : String)
    (fields : α → List Uniform) (ls : List α) (i : Nat)
    (h : i < ls.length) (u : Uniform) (hu : u ∈ fields (ls.get ⟨i, h⟩)) :
    (uniformName arrayName i u.1, u.2)
      ∈ indexedUniforms arrayName fields 0 ls := by
  have := mem_indexedUniforms arrayName fields ls 0 i h u hu
  simpa using this

/-- The directional-light block sits inside `lightUniforms`. -/
theorem mem_lightUniforms_of_dl (dls : List DirectionalLight)
    (sls : List SpotLight) (cls : List ConeLight) (u : Uniform)
    (hu : u ∈ indexedUniforms "directionalLights" dlFields 0 dls) :
    u ∈ lightUniforms dls sls cls := by
  unfold lightUniforms
  exact List.mem_append_left _ (List.mem_append_left _ (List.mem_append_left _
    (List.mem_append_left _ (List.mem_append_right _ hu))))

/-- The spot-light block sits inside `lightUniforms`. -/
theorem mem_lightUniforms_of_sl (dls : List DirectionalLight)
    (sls : List SpotLight) (cls : List ConeLight) (u : Uniform)
    (hu : u ∈ indexedUniforms "spotLights" slFields 0 sls) :
    u ∈ lightUniforms dls sls cls := by
  unfold lightUniforms
  exact List.mem_append_left _ (List.mem_append_left _ (List.mem_append_right _ hu))

/-- The cone-light block sits inside `lightUniforms`. -/
theorem mem_lightUniforms_of_cl (dls : List DirectionalLight)
    (sls : List SpotLight) (cls : List ConeLight) (u : Uniform)
    (hu : u ∈ indexedUniforms "coneLights" clFields 0 cls) :
    u ∈ lightUniforms dls sls cls := by
  unfold lightUniforms
  exact List.mem_append_right _ hu

/-- Any header block followed by the light uniforms satisfies the lit-draw
binding contract, provided the header holds the four scalar bindings. -/
theorem receivesLit_of_header (VP : Mat4) (cameraCenter areaLight : Vec3)
    (dls : List DirectionalLight) (sls : List SpotLight) (cls : List ConeLight)
    (k : RenderCommand) (hdr : List Uniform)
    (h1 : ("transform", UniformValue.mat k.localToWorld) ∈ hdr)
    (h2 : ("Camera", UniformValue.mat VP) ∈ hdr)
    (h3 : ("cameraPosition", UniformValue.v3 cameraCenter) ∈ hdr)
    (h4 : ("areaLight", UniformValue.v3 areaLight) ∈ hdr) :
    ReceivesLitUniforms VP cameraCenter areaLight dls sls cls k
      (hdr ++ lightUniforms dls sls cls) := by
  refine ⟨List.mem_append_left _ h1, List.mem_append_left _ h2,
    List.mem_append_left _ h3, List.mem_append_left _ h4, ?_, ?_, ?_, ?_, ?_, ?_⟩
  · exact List.mem_append_right _ (by simp [lightUniforms])
  · exact List.mem_append_right _ (by simp [lightUniforms])
  · exact List.mem_append_right _ (by simp [lightUniforms])
  · intro i h u hu
    exact List.mem_append_right _ (mem_lightUniforms_of_dl dls sls cls _
      (mem_indexedUniforms_zero "directionalLights" dlFields dls i h u hu))
  · intro i h u hu
    exact List.mem_append_right _ (mem_lightUniforms_of_sl dls sls cls _
      (mem_indexedUniforms_zero "spotLights" slFields sls i h u hu))
  · intro i h u hu
    exact List.mem_append_right _ (mem_lightUniforms_of_cl dls sls cls _
      (mem_indexedUniforms_zero "coneLights" clFields cls i h u hu))

/-- `drawEvents` distributes over concatenation. -/
theorem drawEvents_append (xs ys : List GLEffect) :
    drawEvents (xs ++ ys) = drawEvents xs ++ drawEvents ys :=
  List.filterMap_append xs ys _

/-- `drawEvents` of the empty trace. -/
theorem drawEvents_nil : drawEvents [] = [] := rfl

/-- `drawEvents` of a cons: the head contributes its draw event, if any. -/
theorem drawEvents_cons (x : GLEffect) (xs : List GLEffect) :
    drawEvents (x :: xs)
      = (match x with
          | .drawMesh m => [DrawEvent.command m]
          | .drawSky _ => [DrawEvent.sky]
          | .drawFullscreenTriangle => [DrawEvent.fullscreen]
          | _ => []) ++ drawEvents xs := by
  cases x <;> rfl

/-- Uniform stores contribute no draw events. -/
theorem drawEvents_setUniforms (us : List Uniform) :
    drawEvents (us.map (fun u => GLEffect.setUniform u.1 u.2)) = [] := by
  induction us with
  | nil => rfl
  | cons u us ih =>
    rw [List.map_cons, drawEvents_cons, ih]
    rfl

/-- The per-command effect block of a draw loop produces exactly one draw
event per command, carrying that command's mesh, in list order. -/
theorem drawEvents_commandBlock (f : RenderCommand → List Uniform)
    (cmds : List RenderCommand) :
    drawEvents (cmds.flatMap (fun k =>
        GLEffect.setupMaterial k.material
          :: ((f k).map (fun u => GLEffect.setUniform u.1 u.2)
              ++ [GLEffect.drawMesh k.mesh])))
      = cmds.map (fun k => DrawEvent.command k.mesh) := by
  induction cmds with
  | nil => rfl
  | cons k ks ih =>
    rw [List.flatMap_cons, drawEvents_append, ih, drawEvents_cons,
      drawEvents_append, drawEvents_setUniforms]
    rfl

/-! ## Theorems -/

/-- C5: the modified camera matrix bound for the sky draw,
`alwaysBehindTransform * VP`, forces the sky to the maximum depth: for every
view-projection matrix and every position, the clip-space result has its `z`
component equal to its `w` component, so the sphere's own geometry
contributes nothing to the interpolated depth. -/
theorem sky_forced_to_max_depth (VP : Mat4) (p : Vec4) :
    ((alwaysBehindTransform.mul VP).mulVec p).z
      = ((alwaysBehindTransform.mul VP).mulVec p).w := by
  simp only [alwaysBehindTransform, Mat4.mul, Mat4.mulVec]

/-- C1: the transparency sort returns a permutation of the transparent
commands in which, for every adjacent pair (`A` before `B`),
`dot(A.center - cameraCenter, cameraForward) ≥
 dot(B.center - cameraCenter, cameraForward)`: back-to-front order. -/
theorem transparent_sort_back_to_front (cameraForward cameraCenter : Vec3)
    (commands : List RenderCommand) :
    (sortTransparent cameraForward cameraCenter commands).Perm commands
    ∧ List.Chain'
        (fun A B => dot3 (B.center.sub cameraCenter) cameraForward ≤
                    dot3 (A.center.sub cameraCenter) cameraForward)
        (sortTransparent cameraForward cameraCenter commands) := by
  constructor
  · exact List.mergeSort_perm commands _
  · apply List.Pairwise.chain'
    have htrans : ∀ a b c : RenderCommand,
        (!(transCompare cameraForward cameraCenter b a)) = true →
        (!(transCompare cameraForward cameraCenter c b)) = true →
        (!(transCompare cameraForward cameraCenter c a)) = true := by
      intro a b c hab hbc
      simp only [transCompare, Bool.not_eq_true', decide_eq_false_iff_not, not_lt]
        at hab hbc ⊢
      exact le_trans hbc hab
    have htotal : ∀ a b : RenderCommand,
        ((!(transCompare cameraForward cameraCenter b a))
          || (!(transCompare cameraForward cameraCenter a b))) = true := by
      intro a b
      simp only [Bool.or_eq_true, Bool.not_eq_true', transCompare,
        decide_eq_false_iff_not, not_lt]
      exact le_total _ _
    have hs := List.sorted_mergeSort htrans htotal commands
    refine hs.imp ?_
    intro a b hab
    simpa only [transCompare, Bool.not_eq_true', decide_eq_false_iff_not, not_lt]
      using hab

/-- C9: initialization allocates resources only for configured features.
With only `postprocess` configured, an RGBA8 color target and a 24-bit depth
target at the window size exist and are attached to the one framebuffer, and
no sky resources exist; with only `sky` configured, the sky sphere and sky
material exist and no framebuffer, offscreen target or post-process material
does. -/
theorem feature_scoped_initialization (ws : IVec2) (al : Option Vec3)
    (skyPath ppPath : String) :
    ((initializeRenderer ws ⟨al, none, some ppPath⟩).colorTarget
        = some ⟨TexFormat.RGBA8, ws⟩
     ∧ (initializeRenderer ws ⟨al, none, some ppPath⟩).depthTarget
        = some ⟨TexFormat.DEPTH_COMPONENT24, ws⟩
     ∧ (initializeRenderer ws ⟨al, none, some ppPath⟩).postprocessFrameBuffer
        = some ⟨some ⟨TexFormat.RGBA8, ws⟩, some ⟨TexFormat.DEPTH_COMPONENT24, ws⟩⟩
     ∧ (initializeRenderer ws ⟨al, none, some ppPath⟩).skySphere = none
     ∧ (initializeRenderer ws ⟨al, none, some ppPath⟩).skyMaterial = none)
    ∧ ((initializeRenderer ws ⟨al, some skyPath, none⟩).skySphere.isSome = true
     ∧ (initializeRenderer ws ⟨al, some skyPath, none⟩).skyMaterial.isSome = true
     ∧ (initializeRenderer ws ⟨al, some skyPath, none⟩).postprocessFrameBuffer = none
     ∧ (initializeRenderer ws ⟨al, some skyPath, none⟩).colorTarget = none
     ∧ (initializeRenderer ws ⟨al, some skyPath, none⟩).depthTarget = none
     ∧ (initializeRenderer ws ⟨al, some skyPath, none⟩).postprocessMaterial = none) :=
  ⟨⟨rfl, rfl, rfl, rfl, rfl⟩, ⟨rfl, rfl, rfl, rfl, rfl, rfl⟩⟩

/-- The traversal accumulates one spot light per entity that has at least one
spot-light component (the length bookkeeping behind C10). -/
theorem traverse_sls_length (es : List Entity) (acc : Accum) :
    (traverse acc es).1.sls.length
      = acc.sls.length + (es.filter (fun e => !e.spotLights.isEmpty)).length := by
  induction es generalizing acc with
  | nil => simp [traverse]
  | cons e es ih =>
    simp only [traverse_cons]
    rw [ih (processEntity acc e).1]
    cases hsp : e.spotLights with
    | nil => simp [processEntity, hsp, List.filter_cons]
    | cons s rest =>
      simp [processEntity, hsp, List.filter_cons]
      omega

/-- The traversal accumulates one directional light per entity that has at
least one directional-light component. -/
theorem traverse_dls_length (es : List Entity) (acc : Accum) :
    (traverse acc es).1.dls.length
      = acc.dls.length + (es.filter (fun e => !e.directionalLights.isEmpty)).length := by
  induction es generalizing acc with
  | nil => simp [traverse]
  | cons e es ih =>
    simp only [traverse_cons]
    rw [ih (processEntity acc e).1]
    cases hdl : e.directionalLights with
    | nil => simp [processEntity, getComponent, hdl, List.filter_cons]
    | cons d rest =>
      simp [processEntity, getComponent, hdl, List.filter_cons]
      omega

/-- The traversal accumulates every cone-light component of every entity. -/
theorem traverse_cls_length (es : List Entity) (acc : Accum) :
    (traverse acc es).1.cls.length
      = acc.cls.length + (es.map (fun e => e.coneLights.length)).sum := by
  induction es generalizing acc with
  | nil => simp [traverse]
  | cons e es ih =>
    simp only [traverse_cons]
    rw [ih (processEntity acc e).1]
    simp [processEntity, getAllComponents]
    omega

/-- C6: every collected spot light's cached world position equals the
translation component of its owning entity's world transform (the transform
applied to the local origin, i.e. the matrix's translation column). -/
theorem spot_light_world_position (rs : RendererState) (world : List Entity)
    (s : SpotLight) (h : s ∈ (render rs world).state.spotLights) :
    ∃ e ∈ world, ∃ s0, getComponent e.spotLights = some s0 ∧
      s = { s0 with worldPosition := vec3of (e.localToWorld.mulVec ⟨0, 0, 0, 1⟩) } ∧
      s.worldPosition = vec3of e.localToWorld.c3 := by
  rw [render_state_sls] at h
  rcases traverse_sls_mem world Accum.empty s h with h1 | ⟨e, he, s0, hs0, hs⟩
  · simp [Accum.empty] at h1
  · refine ⟨e, he, s0, hs0, hs, ?_⟩
    subst hs
    simp [Mat4.mulVec, vec3of]

/-- Witness for C6 at a concrete one-spot-light scene. -/
theorem spot_light_world_position_witness :
    spotWitnessLight ∈ (render sampleRenderer spotOnlyWorld).state.spotLights
    ∧ ∃ e ∈ spotOnlyWorld, ∃ s0, getComponent e.spotLights = some s0 ∧
        spotWitnessLight
          = { s0 with worldPosition := vec3of (e.localToWorld.mulVec ⟨0, 0, 0, 1⟩) } ∧
        spotWitnessLight.worldPosition = vec3of e.localToWorld.c3 := by
  have hmem : spotWitnessLight ∈ (render sampleRenderer spotOnlyWorld).state.spotLights := by
    rw [render_state_sls]
    have h1 : (traverse Accum.empty spotOnlyWorld).1.sls
        = [{ sampleSpot with
               worldPosition := vec3of (sampleTransform.mulVec ⟨0, 0, 0, 1⟩) }] := rfl
    rw [h1]
    simp [spotWitnessLight, sampleSpot, sampleTransform, translateM, Mat4.mulVec, vec3of]
  exact ⟨hmem,
    spot_light_world_position sampleRenderer spotOnlyWorld spotWitnessLight hmem⟩

/-- C7: every collected cone light's cached world direction equals its local
direction transformed by the owning entity's `localToWorld` with zero
homogeneous weight (rotated/scaled, not translated). -/
theorem cone_light_world_direction (rs : RendererState) (world : List Entity)
    (c : ConeLight) (h : c ∈ (render rs world).state.coneLights) :
    ∃ e ∈ world, ∃ c0 ∈ e.coneLights,
      c = { c0 with
              worldPosition := vec3of (e.localToWorld.mulVec ⟨0, 0, 0, 1⟩),
              worldDirection := vec3of (e.localToWorld.mulVec
                ⟨c0.direction.x, c0.direction.y, c0.direction.z, 0⟩) } ∧
      c.worldDirection = vec3of (e.localToWorld.mulVec
        ⟨c.direction.x, c.direction.y, c.direction.z, 0⟩) := by
  rw [render_state_cls] at h
  rcases traverse_cls_mem world Accum.empty c h with h1 | ⟨e, he, c0, hc0, hc⟩
  · simp [Accum.empty] at h1
  · refine ⟨e, he, c0, hc0, hc, ?_⟩
    subst hc
    simp

/-- Witness for C7 at a concrete one-cone-light scene. -/
theorem cone_light_world_direction_witness :
    coneWitnessLight ∈ (render sampleRenderer coneOnlyWorld).state.coneLights
    ∧ ∃ e ∈ coneOnlyWorld, ∃ c0 ∈ e.coneLights,
        coneWitnessLight
          = { c0 with
                worldPosition := vec3of (e.localToWorld.mulVec ⟨0, 0, 0, 1⟩),
                worldDirection := vec3of (e.localToWorld.mulVec
                  ⟨c0.direction.x, c0.direction.y, c0.direction.z, 0⟩) } ∧
        coneWitnessLight.worldDirection = vec3of (e.localToWorld.mulVec
          ⟨coneWitnessLight.direction.x, coneWitnessLight.direction.y,
           coneWitnessLight.direction.z, 0⟩) := by
  have hmem : coneWitnessLight ∈ (render sampleRenderer coneOnlyWorld).state.coneLights := by
    rw [render_state_cls]
    have h1 : (traverse Accum.empty coneOnlyWorld).1.cls
        = [{ sampleCone with
               worldPosition := vec3of (sampleTransform.mulVec ⟨0, 0, 0, 1⟩),
               worldDirection := vec3of (sampleTransform.mulVec
                 ⟨sampleCone.direction.x, sampleCone.direction.y,
                  sampleCone.direction.z, 0⟩) }] := rfl
    rw [h1]
    simp [coneWitnessLight, sampleCone, sampleTransform, translateM, Mat4.mulVec, vec3of]
  exact ⟨hmem,
    cone_light_world_direction sampleRenderer coneOnlyWorld coneWitnessLight hmem⟩

/-- C8: traversal never writes a directional-light component: after `render`
every entity's directional lights are exactly what they were before, and
every collected directional light is one of the authored components,
unchanged. -/
theorem directional_lights_read_only (rs : RendererState) (world : List Entity) :
    ((render rs world).world).map Entity.directionalLights
      = world.map Entity.directionalLights
    ∧ ∀ d ∈ (render rs world).state.directionalLights,
        ∃ e ∈ world, getComponent e.directionalLights = some d := by
  constructor
  · rw [render_world]
    exact traverse_preserves_directional Accum.empty world
  · intro d hd
    rw [render_state_dls] at hd
    rcases traverse_dls_mem world Accum.empty d hd with h1 | h2
    · simp [Accum.empty] at h1
    · exact h2

/-- Witness for C8 at a concrete one-directional-light scene. -/
theorem directional_lights_read_only_witness :
    ((render sampleRenderer dirOnlyWorld).world).map Entity.directionalLights
      = dirOnlyWorld.map Entity.directionalLights
    ∧ ∃ e ∈ dirOnlyWorld, getComponent e.directionalLights = some sampleDirectional := by
  have hmem : sampleDirectional ∈ (render sampleRenderer dirOnlyWorld).state.directionalLights := by
    rw [render_state_dls]
    have h1 : (traverse Accum.empty dirOnlyWorld).1.dls = [sampleDirectional] := rfl
    rw [h1]
    exact List.mem_singleton.mpr rfl
  exact ⟨(directional_lights_read_only sampleRenderer dirOnlyWorld).1,
    (directional_lights_read_only sampleRenderer dirOnlyWorld).2 sampleDirectional hmem⟩

/-- C10: per frame, an entity contributes at most one entry to the spot list
and at most one to the directional list (exactly one when it carries at
least one component of the kind), but one entry per cone-light component it
carries. -/
theorem per_entity_light_collection_multiplicity (rs : RendererState)
    (world : List Entity) :
    (render rs world).state.spotLights.length
      = (world.filter (fun e => !e.spotLights.isEmpty)).length
    ∧ (render rs world).state.directionalLights.length
      = (world.filter (fun e => !e.directionalLights.isEmpty)).length
    ∧ (render rs world).state.coneLights.length
      = (world.map (fun e => e.coneLights.length)).sum := by
  refine ⟨?_, ?_, ?_⟩
  · rw [render_state_sls, traverse_sls_length]
    simp [Accum.empty]
  · rw [render_state_dls, traverse_dls_length]
    simp [Accum.empty]
  · rw [render_state_cls, traverse_cls_length]
    simp [Accum.empty]

/-- C2 counterexample: in a camera-less frame, `render` issues no effects but
still mutates the scene: the spot light's cached world position is
overwritten during traversal, a side effect beyond the list rebuilding. -/
theorem no_camera_still_mutates_lights :
    (traverse Accum.empty spotOnlyWorld).1.camera = none
    ∧ (render sampleRenderer spotOnlyWorld).effects = []
    ∧ ((render sampleRenderer spotOnlyWorld).world).map Entity.spotLights
        ≠ spotOnlyWorld.map Entity.spotLights := by
  refine ⟨rfl, rfl, ?_⟩
  have h1 : ((render sampleRenderer spotOnlyWorld).world).map Entity.spotLights
      = [[{ sampleSpot with
              worldPosition := vec3of (sampleTransform.mulVec ⟨0, 0, 0, 1⟩) }]] := rfl
  rw [h1]
  simp [spotOnlyWorld, sampleSpot, sampleTransform, translateM, Mat4.mulVec, vec3of]

/-- C2 (amended): in a frame with no camera, `render` performs no clear and
no draw calls (empty effect trace, so the output target is untouched), and
the only mutations are the rebuilding of the per-frame lists plus the
spot/cone world-space cache overwrites already performed during traversal.
-/
theorem no_camera_frame_abandoned (rs : RendererState) (world : List Entity)
    (h : (traverse Accum.empty world).1.camera = none) :
    (render rs world).effects = []
    ∧ (render rs world).state = { rs with
        opaqueCommands := (traverse Accum.empty world).1.opaqueCommands
        transparentCommands := (traverse Accum.empty world).1.transparentCommands
        directionalLights := (traverse Accum.empty world).1.dls
        spotLights := (traverse Accum.empty world).1.sls
        coneLights := (traverse Accum.empty world).1.cls }
    ∧ ((render rs world).world).map eraseLightCaches = world.map eraseLightCaches := by
  refine ⟨?_, ?_, ?_⟩
  · simp [render, h]
  · simp [render, h]
  · rw [render_world]
    exact traverse_world_erase Accum.empty world

/-- C3: in a frame with a camera, the draw calls are issued in the order:
all opaque commands in collection (append) order, then the sky if the sky
feature is enabled, then the transparent commands in sorted order, then the
post-process fullscreen triangle if post-processing is enabled. -/
theorem draw_call_order (rs : RendererState) (world : List Entity)
    (cam : CameraComponent × Mat4)
    (h : (traverse Accum.empty world).1.camera = some cam) :
    drawEvents (render rs world).effects
      = ((traverse Accum.empty world).1.opaqueCommands).map
          (fun k => DrawEvent.command k.mesh)
        ++ (if rs.skyMaterial.isSome then [DrawEvent.sky] else [])
        ++ ((sortTransparent
              (vec3of (cam.2.mulVec ⟨0, 0, -1, 0⟩))
              (vec3of (cam.2.mulVec ⟨0, 0, 0, 1⟩))
              ((traverse Accum.empty world).1.transparentCommands)).map
            (fun k => DrawEvent.command k.mesh))
        ++ (if rs.postprocessMaterial.isSome then [DrawEvent.fullscreen] else []) := by
  simp only [render, h]
  cases hsky : rs.skyMaterial <;> cases hpp : rs.postprocessMaterial <;>
    simp [drawEvents_append, drawEvents_cons, drawEvents_nil,
      drawEvents_commandBlock, drawEvents_setUniforms, hsky, hpp]

/-- Witness for C3 at a concrete one-camera, one-opaque-mesh scene. -/
theorem draw_call_order_witness :
    (traverse Accum.empty cameraWorld).1.camera = some (sampleCamera, Mat4.identity)
    ∧ drawEvents (render sampleRenderer cameraWorld).effects
      = ((traverse Accum.empty cameraWorld).1.opaqueCommands).map
          (fun k => DrawEvent.command k.mesh)
        ++ (if sampleRenderer.skyMaterial.isSome then [DrawEvent.sky] else [])
        ++ ((sortTransparent
              (vec3of (((sampleCamera, Mat4.identity).2).mulVec ⟨0, 0, -1, 0⟩))
              (vec3of (((sampleCamera, Mat4.identity).2).mulVec ⟨0, 0, 0, 1⟩))
              ((traverse Accum.empty cameraWorld).1.transparentCommands)).map
            (fun k => DrawEvent.command k.mesh))
        ++ (if sampleRenderer.postprocessMaterial.isSome then [DrawEvent.fullscreen]
            else []) :=
  ⟨rfl, draw_call_order sampleRenderer cameraWorld (sampleCamera, Mat4.identity) rfl⟩

/-- C4: for a draw command bound in either the opaque loop or the transparent
loop, a default/lit material receives `transform = worldTransform` (the model
matrix alone), `Camera = VP` separately, the camera position, the area light,
and the indexed light arrays with their counts; any other material kind
receives exactly `transform = VP * worldTransform` and no lighting uniforms.
-/
theorem lit_vs_unlit_uniforms (VP : Mat4) (cameraCenter areaLight : Vec3)
    (dls : List DirectionalLight) (sls : List SpotLight) (cls : List ConeLight)
    (k : RenderCommand) :
    ∀ B ∈ [bindOpaqueUniforms VP cameraCenter areaLight dls sls cls k,
           bindTransparentUniforms VP cameraCenter areaLight dls sls cls k],
      (k.material.kind = MaterialKind.defaultMat →
        ReceivesLitUniforms VP cameraCenter areaLight dls sls cls k B)
      ∧ (k.material.kind ≠ MaterialKind.defaultMat →
        B = [("transform", UniformValue.mat (VP.mul k.localToWorld))]) := by
  intro B hB
  have hcases : B = bindOpaqueUniforms VP cameraCenter areaLight dls sls cls k
      ∨ B = bindTransparentUniforms VP cameraCenter areaLight dls sls cls k := by
    simpa using hB
  constructor
  · intro hkind
    rcases hcases with hBe | hBe <;> subst hBe
    · rw [bindOpaqueUniforms, if_pos hkind]
      exact receivesLit_of_header VP cameraCenter areaLight dls sls cls k _
        (by simp) (by simp) (by simp) (by simp)
    · rw [bindTransparentUniforms, if_pos hkind]
      exact receivesLit_of_header VP cameraCenter areaLight dls sls cls k _
        (by simp) (by simp) (by simp) (by simp)
  · intro hkind
    rcases hcases with hBe | hBe <;> subst hBe
    · rw [bindOpaqueUniforms, if_neg hkind]
    · rw [bindTransparentUniforms, if_neg hkind]

/-- Witness for C4: a lit command receives the full lit binding from the
opaque loop, and an unlit command receives only the precombined transform
from the transparent loop. -/
theorem lit_vs_unlit_uniforms_witness :
    ReceivesLitUniforms Mat4.identity ⟨0, 0, 0⟩ ⟨1, 1, 1⟩
      [sampleDirectional] [sampleSpot] [sampleCone] sampleLitCommand
      (bindOpaqueUniforms Mat4.identity ⟨0, 0, 0⟩ ⟨1, 1, 1⟩
        [sampleDirectional] [sampleSpot] [sampleCone] sampleLitCommand)
    ∧ bindTransparentUniforms Mat4.identity ⟨0, 0, 0⟩ ⟨1, 1, 1⟩
        [sampleDirectional] [sampleSpot] [sampleCone] sampleUnlitCommand
      = [("transform",
          UniformValue.mat (Mat4.identity.mul sampleUnlitCommand.localToWorld))] :=
  ⟨(lit_vs_unlit_uniforms Mat4.identity ⟨0, 0, 0⟩ ⟨1, 1, 1⟩
      [sampleDirectional] [sampleSpot] [sampleCone] sampleLitCommand
      _ (List.mem_cons_self _ _)).1 rfl,
   (lit_vs_unlit_uniforms Mat4.identity ⟨0, 0, 0⟩ ⟨1, 1, 1⟩
      [sampleDirectional] [sampleSpot] [sampleCone] sampleUnlitCommand
      _ (by simp)).2 (by decide)⟩

/-- Witness for the amended C2 at a concrete camera-less scene. -/
theorem no_camera_frame_abandoned_witness :
    (traverse Accum.empty spotOnlyWorld).1.camera = none
    ∧ ((render sampleRenderer spotOnlyWorld).effects = []
       ∧ (render sampleRenderer spotOnlyWorld).state = { sampleRenderer with
           opaqueCommands := (traverse Accum.empty spotOnlyWorld).1.opaqueCommands
           transparentCommands := (traverse Accum.empty spotOnlyWorld).1.transparentCommands
           directionalLights := (traverse Accum.empty spotOnlyWorld).1.dls
           spotLights := (traverse Accum.empty spotOnlyWorld).1.sls
           coneLights := (traverse Accum.empty spotOnlyWorld).1.cls }
       ∧ ((render sampleRenderer spotOnlyWorld).world).map eraseLightCaches
           = spotOnlyWorld.map eraseLightCaches) :=
  ⟨rfl, no_camera_frame_abandoned sampleRenderer spotOnlyWorld rfl⟩

end ForwardRenderer
